import Mathlib

/- Verification of the multithreaded proxy server's cache manager, rate
limiter, request filter, reply composition and statistics against its
specification.  Python dictionaries with string keys are modelled as
association lists with first-match lookup; Redis string values as an
inductive of decodable entries and raw (undecodable) payloads; byte strings
as lists of naturals below 256. -/

/-- Boolean test that the first list is an initial run of the second
(characters compared positionally). -/
def leadsWith : List Char → List Char → Bool
  | [], _ => true
  | _ :: _, [] => false
  | a :: as, b :: bs => a == b && leadsWith as bs

/-- Boolean test that the first list occurs contiguously inside the second. -/
def occursIn (n : List Char) : List Char → Bool
  | [] => n.isEmpty
  | c :: cs => leadsWith n (c :: cs) || occursIn n cs

/-- The test `strContainsB hay needle` models Python's `needle in hay` on strings. -/
def strContainsB (hay needle : String) : Bool :=
  occursIn needle.toList hay.toList

/-- Python `str.lower()` (ASCII case folding, applied character-wise). -/
def strToLower (s : String) : String :=
  String.mk (s.toList.map Char.toLower)

/-- Python dict lookup over an association list: first binding wins
(bindings are kept newest-first where overwriting matters). -/
def dlookup {α : Type} : List (String × α) → String → Option α
  | [], _ => none
  | p :: t, k => if p.1 = k then some p.2 else dlookup t k

/-- Python `dict.get(k, d)` over an association list (exact-case key match). -/
def hGetD (h : List (String × String)) (k d : String) : String :=
  (dlookup h k).getD d

/-- The base64 alphabet used by Python's `base64.b64encode`. -/
def b64chars : List Char :=
  ['A','B','C','D','E','F','G','H','I','J','K','L','M',
   'N','O','P','Q','R','S','T','U','V','W','X','Y','Z',
   'a','b','c','d','e','f','g','h','i','j','k','l','m',
   'n','o','p','q','r','s','t','u','v','w','x','y','z',
   '0','1','2','3','4','5','6','7','8','9','+','/']

/-- Character encoding a six-bit group. -/
def sextetChar (n : Nat) : Char := b64chars.getD n 'A'

/-- Index of a base64 character in the alphabet. -/
def charSextet (c : Char) : Nat := b64chars.indexOf c

/-- Python's `base64.b64encode` over a byte list, producing the encoded characters. -/
def b64encode : List Nat → List Char
  | a :: b :: c :: rest =>
      sextetChar (a / 4) :: sextetChar ((a % 4) * 16 + b / 16) ::
        sextetChar ((b % 16) * 4 + c / 64) :: sextetChar (c % 64) :: b64encode rest
  | [a, b] =>
      [sextetChar (a / 4), sextetChar ((a % 4) * 16 + b / 16),
       sextetChar ((b % 16) * 4), '=']
  | [a] => [sextetChar (a / 4), sextetChar ((a % 4) * 16), '=', '=']
  | [] => []

/-- Python's `base64.b64decode` over encoded characters, recovering the byte list. -/
def b64decode : List Char → List Nat
  | c1 :: c2 :: c3 :: c4 :: rest =>
      if c3 == '=' then [charSextet c1 * 4 + charSextet c2 / 16]
      else if c4 == '=' then
        [charSextet c1 * 4 + charSextet c2 / 16,
         (charSextet c2 % 16) * 16 + charSextet c3 / 4]
      else
        (charSextet c1 * 4 + charSextet c2 / 16) ::
          ((charSextet c2 % 16) * 16 + charSextet c3 / 4) ::
            ((charSextet c3 % 4) * 64 + charSextet c4) :: b64decode rest
  | _ => []

lemma charSextet_sextetChar : ∀ n, n < 64 → charSextet (sextetChar n) = n := by
  decide

lemma sextetChar_ne_pad : ∀ n, n < 64 → (sextetChar n == '=') = false := by
  decide

/-- The base64 encode/decode round trip is the identity on byte lists. -/
lemma b64_roundtrip : ∀ bs : List Nat, (∀ x ∈ bs, x < 256) →
    b64decode (b64encode bs) = bs
  | [], _ => rfl
  | [a], h => by
      have ha : a < 256 := h a (by simp)
      have h1 : a / 4 < 64 := by omega
      have h2 : (a % 4) * 16 < 64 := by omega
      simp [b64encode, b64decode,
        charSextet_sextetChar _ h1, charSextet_sextetChar _ h2]
      all_goals omega
  | [a, b], h => by
      have ha : a < 256 := h a (by simp)
      have hb : b < 256 := h b (by simp)
      have h1 : a / 4 < 64 := by omega
      have h2 : (a % 4) * 16 + b / 16 < 64 := by omega
      have h3 : (b % 16) * 4 < 64 := by omega
      simp [b64encode, b64decode, sextetChar_ne_pad _ h3,
        charSextet_sextetChar _ h1, charSextet_sextetChar _ h2,
        charSextet_sextetChar _ h3]
      all_goals omega
  | a :: b :: c :: rest, h => by
      have ha : a < 256 := h a (by simp)
      have hb : b < 256 := h b (by simp)
      have hc : c < 256 := h c (by simp)
      have ih := b64_roundtrip rest (fun x hx => h x (by simp [hx]))
      have h1 : a / 4 < 64 := by omega
      have h2 : (a % 4) * 16 + b / 16 < 64 := by omega
      have h3 : (b % 16) * 4 + c / 64 < 64 := by omega
      have h4 : c % 64 < 64 := by omega
      simp [b64encode, b64decode, sextetChar_ne_pad _ h3,
        sextetChar_ne_pad _ h4, charSextet_sextetChar _ h1,
        charSextet_sextetChar _ h2, charSextet_sextetChar _ h3,
        charSextet_sextetChar _ h4, ih]
      all_goals omega

/-- A backend response as assembled by `_forward_request`: status code,
headers (a Python dict of strings), body bytes and the requested URL. -/
structure ResponseData where
  status_code : Nat
  headers : List (String × String)
  content : List Nat
  url : String
  deriving DecidableEq

/-- The document `cache_response` stores in Redis: the response with the body
replaced by its base64 encoding under the `content_base64` field. -/
structure StoredResponse where
  status_code : Nat
  headers : List (String × String)
  content_base64 : List Char
  url : String
  deriving DecidableEq

/-- A Redis string value as read back by `get_cached_response`: either a JSON
document written by `cache_response`, or a raw payload on which `json.loads`
raises `JSONDecodeError`. -/
inductive CacheVal where
  | entry : StoredResponse → CacheVal
  | raw : String → CacheVal
  deriving DecidableEq

/-- Python truthiness of the value returned by `redis.get`: a non-empty
string; a stored JSON document is always non-empty. -/
def cvalTruthy : CacheVal → Bool
  | .entry _ => true
  | .raw s => s != ""

/-- The Redis keyspace used by the cache manager, newest binding first
(`SETEX` overwrites, `GET` reads the newest binding). -/
abbrev CacheStore := List (String × CacheVal)

/-- Whether a Python dict holds a binding for `k`. -/
def hasKey {α : Type} : List (String × α) → String → Bool
  | [], _ => false
  | p :: t, k => if p.1 = k then true else hasKey t k

/-- Python dict assignment `d[k] = v`: replace an existing binding in place
or append a new one. -/
def dictUpd (d : List (String × String)) (k v : String) :
    List (String × String) :=
  if hasKey d k then
    d.map (fun p => if p.1 = k then (k, v) else p)
  else d ++ [(k, v)]

/-- The header projection inside `_generate_cache_key`: keep only accept,
accept-language and accept-encoding, lowercased, built as a Python dict
comprehension (later duplicates overwrite earlier ones). -/
def cacheHeaders (headers : List (String × String)) : List (String × String) :=
  headers.foldl
    (fun d p =>
      if strToLower p.1 == "accept" || strToLower p.1 == "accept-language" ||
          strToLower p.1 == "accept-encoding" then
        dictUpd d (strToLower p.1) p.2
      else d) []

/-- Model of `_generate_cache_key`.  The source serializes the key components to
canonical JSON and hashes with md5; the digest is modelled by the canonical
serialization itself, which is deterministic in the same components (md5 is
treated as collision-free).  The body participates only for non-GET methods
and only when truthy. -/
def generateCacheKey (method url : String) (headers : List (String × String))
    (body : Option String) : String :=
  let ch := cacheHeaders headers
  let hstr := String.intercalate "," (ch.map (fun p => p.1 ++ ":" ++ p.2))
  let base := "method=" ++ method ++ ";url=" ++ url ++ ";headers=" ++ hstr
  match body with
  | some b => if method != "GET" && b != "" then base ++ ";body=" ++ b else base
  | none => base

/-- The stored document built by `cache_response`: binary content replaced by
its base64 encoding. -/
def encodeStored (rd : ResponseData) : StoredResponse :=
  { status_code := rd.status_code, headers := rd.headers,
    content_base64 := b64encode rd.content, url := rd.url }

/-- Model of `CacheManager.cache_response`: store a response unless the method is not
GET, the status is 400 or above, or the response's `Cache-Control` header
(looked up with exact case) contains `no-store` or `no-cache` as a
case-sensitive substring, exactly as in the source. -/
def cache_response (store : CacheStore) (method url : String)
    (headers : List (String × String)) (rd : ResponseData)
    (body : Option String) : CacheStore :=
  if method != "GET" then store
  else
    let key := generateCacheKey method url headers body
    if 400 ≤ rd.status_code then store
    else
      let cc := hGetD rd.headers "Cache-Control" ""
      if strContainsB cc "no-store" || strContainsB cc "no-cache" then store
      else (key, CacheVal.entry (encodeStored rd)) :: store

/-- Result of `CacheManager.get_cached_response` together with the increments
it applies to the `cache_hits` and `cache_misses` counters. -/
structure GetResult where
  response : Option ResponseData
  hits : Nat
  misses : Nat
  deriving DecidableEq

/-- Model of `CacheManager.get_cached_response`.  The source increments `cache_hits`
as soon as a truthy value is found, before attempting to decode it, and
additionally increments `cache_misses` when decoding fails. -/
def get_cached_response (store : CacheStore) (method url : String)
    (headers : List (String × String)) (body : Option String) : GetResult :=
  if method != "GET" then { response := none, hits := 0, misses := 0 }
  else
    match dlookup store (generateCacheKey method url headers body) with
    | none => { response := none, hits := 0, misses := 1 }
    | some v =>
      if cvalTruthy v then
        match v with
        | .entry e =>
            { response := some { status_code := e.status_code,
                                 headers := e.headers,
                                 content := b64decode e.content_base64,
                                 url := e.url },
              hits := 1, misses := 0 }
        | .raw _ => { response := none, hits := 1, misses := 1 }
      else { response := none, hits := 0, misses := 1 }

/-- Sample response used by concrete witnesses. -/
def rdSample : ResponseData :=
  { status_code := 200, headers := [("Content-Type", "text/plain")],
    content := [104, 105], url := "http://localhost:8000/x" }

/-- C1: a successful `cache_response` of a cacheable GET response (status in
[200,400), `Cache-Control` without `no-store`/`no-cache`) followed by
`get_cached_response` with the same method, url, headers and body returns the
stored status, headers and a byte-identical body (the body surviving the
base64 encode/decode round trip through the store), counting one cache hit. -/
theorem cache_put_get_roundtrip (store : CacheStore) (url : String)
    (headers : List (String × String)) (body : Option String)
    (rd : ResponseData)
    (hlo : 200 ≤ rd.status_code) (hhi : rd.status_code < 400)
    (hns : strContainsB (hGetD rd.headers "Cache-Control" "") "no-store" = false)
    (hnc : strContainsB (hGetD rd.headers "Cache-Control" "") "no-cache" = false)
    (hbytes : ∀ x ∈ rd.content, x < 256) :
    get_cached_response (cache_response store "GET" url headers rd body)
        "GET" url headers body =
      { response := some { status_code := rd.status_code, headers := rd.headers,
                           content := rd.content, url := rd.url },
        hits := 1, misses := 0 } := by
  have hst : ¬ 400 ≤ rd.status_code := by omega
  simp [cache_response, get_cached_response, hst, hns, hnc, dlookup,
    cvalTruthy, encodeStored, b64_roundtrip rd.content hbytes]

/-- C1 witness: the round trip evaluated on a concrete store, request and
response. -/
theorem cache_put_get_roundtrip_witness :
    get_cached_response (cache_response [] "GET" "/x" [] rdSample none)
        "GET" "/x" [] none =
      { response := some { status_code := 200,
                           headers := [("Content-Type", "text/plain")],
                           content := [104, 105],
                           url := "http://localhost:8000/x" },
        hits := 1, misses := 0 } :=
  cache_put_get_roundtrip [] "/x" [] none rdSample (by decide) (by decide)
    (by decide) (by decide) (by decide)

/-- C5 counterexample: the source's Cache-Control check is case-sensitive on
both the header name and the token, so a lowercase header name or an
upper-case token value is cached anyway instead of the claimed no-op. -/
theorem cache_control_case_counterexample :
    cache_response [] "GET" "/x" []
        { status_code := 200, headers := [("cache-control", "no-store")],
          content := [], url := "u" } none ≠ [] ∧
    cache_response [] "GET" "/x" []
        { status_code := 200, headers := [("Cache-Control", "NO-STORE")],
          content := [], url := "u" } none ≠ [] := by
  constructor <;> decide

/-- C5 amended: `cache_response` on a GET response with status below 400 is a
no-op exactly when the exact-case `Cache-Control` header value contains
`no-store` or `no-cache` as a case-sensitive substring; otherwise the entry is
stored (in particular `max-age=0` alone does not suppress caching). -/
theorem cache_response_no_store_no_cache (store : CacheStore) (url : String)
    (headers : List (String × String)) (rd : ResponseData)
    (body : Option String) (hst : rd.status_code < 400) :
    cache_response store "GET" url headers rd body =
      (if (strContainsB (hGetD rd.headers "Cache-Control" "") "no-store" ||
           strContainsB (hGetD rd.headers "Cache-Control" "") "no-cache") = true
       then store
       else (generateCacheKey "GET" url headers body,
             CacheVal.entry (encodeStored rd)) :: store) := by
  have h4 : ¬ 400 ≤ rd.status_code := by omega
  simp [cache_response, h4]

/-- C5 witness: a `no-store` response with exact-case header and token is not
stored. -/
theorem cache_response_no_store_no_cache_witness :
    cache_response [] "GET" "/x" []
        { status_code := 200, headers := [("Cache-Control", "no-store")],
          content := [], url := "u" } none = [] := by
  rw [cache_response_no_store_no_cache [] "/x" []
      { status_code := 200, headers := [("Cache-Control", "no-store")],
        content := [], url := "u" } none (by decide)]
  decide

/-- C6 counterexample: when the stored value fails to decode, the source
increments `cache_hits` (taken before decoding) and then also
`cache_misses`, so both counters change on a single GET lookup, not exactly
one. -/
theorem cache_counters_counterexample :
    get_cached_response
        [(generateCacheKey "GET" "/x" [] none, CacheVal.raw "junk")]
        "GET" "/x" [] none =
      { response := none, hits := 1, misses := 1 } := by
  decide

/-- C6 amended: on a GET lookup, `cache_hits` is incremented exactly when a
truthy stored value is found (before any decoding), and `cache_misses`
exactly when the key is absent, the stored value is empty, or it fails to
decode; in the decode-failure case both counters are incremented by 1. -/
theorem cache_counters (store : CacheStore) (url : String)
    (headers : List (String × String)) (body : Option String) :
    ((get_cached_response store "GET" url headers body).hits,
     (get_cached_response store "GET" url headers body).misses) =
      (match dlookup store (generateCacheKey "GET" url headers body) with
       | none => (0, 1)
       | some (CacheVal.entry _) => (1, 0)
       | some (CacheVal.raw s) => if s = "" then (0, 1) else (1, 1)) := by
  unfold get_cached_response
  cases hl : dlookup store (generateCacheKey "GET" url headers body) with
  | none => simp [hl]
  | some v =>
    cases v with
    | entry e => simp [hl, cvalTruthy]
    | raw s =>
      by_cases hs : s = "" <;> simp [hl, cvalTruthy, hs]



lemma dlookup_append_single_ne (k v k' : String) (hne : k' ≠ k) :
    ∀ h : List (String × String), dlookup (h ++ [(k, v)]) k' = dlookup h k'
  | [] => by
      have h1 : ¬ k = k' := fun he => hne he.symm
      simp [dlookup, h1]
  | p :: t => by
      by_cases hp : p.1 = k'
      · simp [dlookup, hp]
      · simp only [List.cons_append, dlookup, if_neg hp]
        exact dlookup_append_single_ne k v k' hne t

lemma dlookup_map_upd_ne (k v k' : String) (hne : k' ≠ k) :
    ∀ h : List (String × String),
      dlookup (h.map (fun p => if p.1 = k then (k, v) else p)) k'
        = dlookup h k'
  | [] => rfl
  | p :: t => by
      have h1 : ¬ k = k' := fun he => hne he.symm
      by_cases hpk : p.1 = k
      · have h2 : ¬ p.1 = k' := by rw [hpk]; exact h1
        simp only [List.map_cons, if_pos hpk, dlookup, if_neg h1, if_neg h2]
        exact dlookup_map_upd_ne k v k' hne t
      · simp only [List.map_cons, if_neg hpk, dlookup]
        by_cases hk : p.1 = k'
        · simp [hk]
        · simp only [if_neg hk]
          exact dlookup_map_upd_ne k v k' hne t

lemma dlookup_map_upd_self (k v : String) :
    ∀ h : List (String × String), hasKey h k = true →
      dlookup (h.map (fun p => if p.1 = k then (k, v) else p)) k = some v
  | [], hyp => by simp [hasKey] at hyp
  | p :: t, hyp => by
      by_cases hpk : p.1 = k
      · simp [List.map_cons, if_pos hpk, dlookup]
      · have ht : hasKey t k = true := by
          simpa [hasKey, if_neg hpk] using hyp
        simp only [List.map_cons, if_neg hpk, dlookup, if_neg hpk]
        exact dlookup_map_upd_self k v t ht

lemma dlookup_absent_append (k v : String) :
    ∀ h : List (String × String), hasKey h k = false →
      dlookup (h ++ [(k, v)]) k = some v
  | [], _ => by simp [dlookup]
  | p :: t, hyp => by
      have hpk : ¬ p.1 = k := by
        intro he
        simp [hasKey, if_pos he] at hyp
      have ht : hasKey t k = false := by
        simpa [hasKey, if_neg hpk] using hyp
      simp only [List.cons_append, dlookup, if_neg hpk]
      exact dlookup_absent_append k v t ht

/-- After `d[k] = v`, looking up `k` gives `v`. -/
lemma dlookup_dictUpd_self (h : List (String × String)) (k v : String) :
    dlookup (dictUpd h k v) k = some v := by
  unfold dictUpd
  cases ha : hasKey h k with
  | true => rw [if_pos rfl]; exact dlookup_map_upd_self k v h ha
  | false => rw [if_neg Bool.false_ne_true]
             exact dlookup_absent_append k v h ha

/-- After `d[k] = v`, looking up any other key is unchanged. -/
lemma dlookup_dictUpd_ne (h : List (String × String)) (k v k' : String)
    (hne : k' ≠ k) : dlookup (dictUpd h k v) k' = dlookup h k' := by
  unfold dictUpd
  cases ha : hasKey h k with
  | true => rw [if_pos rfl]; exact dlookup_map_upd_ne k v k' hne h
  | false => rw [if_neg Bool.false_ne_true]
             exact dlookup_append_single_ne k v k' hne h

/-- An HTTP reply as composed by `_send_response_to_client` or
`_send_error_response`: status line code, header dict, body bytes. -/
structure Reply where
  status_code : Nat
  headers : List (String × String)
  body : List Nat
  deriving DecidableEq

/-- The compression condition of `_send_response_to_client`: compression
enabled, body longer than 1024 bytes, and — both looked up in the RESPONSE
headers dict, as the source does — `gzip` in `Accept-Encoding` and `text` in
`Content-Type`. -/
def gzipTrigger (enableCompression : Bool) (rd : ResponseData) : Bool :=
  enableCompression && decide (1024 < rd.content.length) &&
    strContainsB (hGetD rd.headers "Accept-Encoding" "") "gzip" &&
    strContainsB (hGetD rd.headers "Content-Type" "") "text"

/-- Model of `_send_response_to_client`, parametric in the gzip codec `gz` (the
`gzip.compress` library function, external to the program).  When the
trigger holds the body is replaced by its compressed form and
`Content-Encoding: gzip` is set; `Content-Length` is then always set to the
final body length. -/
def send_response_to_client (gz : List Nat → List Nat)
    (enableCompression : Bool) (rd : ResponseData) : Reply :=
  if gzipTrigger enableCompression rd then
    { status_code := rd.status_code,
      headers := dictUpd (dictUpd rd.headers "Content-Encoding" "gzip")
        "Content-Length" (toString (gz rd.content).length),
      body := gz rd.content }
  else
    { status_code := rd.status_code,
      headers := dictUpd rd.headers "Content-Length"
        (toString rd.content.length),
      body := rd.content }

/-- The compression trigger written from the specification's words, for
comparison with the source behavior: the fourth conjunct reads the CLIENT
REQUEST'S `Accept-Encoding`, which `_send_response_to_client` never
consults. -/
def specCompressionTrigger (enable : Bool) (bodyLen : Nat)
    (requestHeaders respHeaders : List (String × String)) : Bool :=
  enable && decide (1024 < bodyLen) &&
    strContainsB (hGetD requestHeaders "Accept-Encoding" "") "gzip" &&
    strContainsB (hGetD respHeaders "Content-Type" "") "text"

/-- A 1025-byte text response without `Accept-Encoding` among its (response)
headers, used to separate the two triggers. -/
def rdBig : ResponseData :=
  { status_code := 200, headers := [("Content-Type", "text/html")],
    content := List.replicate 1025 65, url := "u" }

set_option maxRecDepth 8192 in
/-- C3 counterexample: with compression enabled, a 1025-byte text body and a
client request advertising `Accept-Encoding: gzip` (all four claimed
triggers hold), the reply is sent uncompressed, because the source looks for
`gzip` in the RESPONSE headers' `Accept-Encoding`, not in the request's. -/
theorem compression_counterexample :
    specCompressionTrigger true 1025 [("Accept-Encoding", "gzip")]
        [("Content-Type", "text/html")] = true ∧
    (send_response_to_client (fun _ => [0]) true rdBig).body = rdBig.content ∧
    dlookup (send_response_to_client (fun _ => [0]) true rdBig).headers
        "Content-Encoding" = none := by
  refine ⟨by decide, ?_, ?_⟩ <;> decide

/-- C3 amended: the reply body is compressed — with `Content-Encoding: gzip`
set and `Content-Length` updated to the compressed length — if and only if
compression is enabled, the body strictly exceeds 1024 bytes, and the
RESPONSE headers carry `gzip` in `Accept-Encoding` and `text` in
`Content-Type`; otherwise the body is sent untouched with `Content-Length`
equal to its byte length (so a 1024-byte body is never compressed and a
1025-byte one is when the other triggers hold). -/
theorem compression_policy (gz : List Nat → List Nat) (ec : Bool)
    (rd : ResponseData) :
    (send_response_to_client gz ec rd).status_code = rd.status_code ∧
    (send_response_to_client gz ec rd).body =
      (if gzipTrigger ec rd then gz rd.content else rd.content) ∧
    dlookup (send_response_to_client gz ec rd).headers "Content-Length" =
      some (toString (send_response_to_client gz ec rd).body.length) ∧
    dlookup (send_response_to_client gz ec rd).headers "Content-Encoding" =
      (if gzipTrigger ec rd then some "gzip"
       else dlookup rd.headers "Content-Encoding") := by
  have hne1 : ("Content-Encoding" : String) ≠ "Content-Length" := by decide
  cases ht : gzipTrigger ec rd with
  | true =>
    simp [send_response_to_client, ht, dlookup_dictUpd_self,
      dlookup_dictUpd_ne, hne1]
  | false =>
    simp [send_response_to_client, ht, dlookup_dictUpd_self,
      dlookup_dictUpd_ne, hne1]

/-- The proxy's counter bag (the fields touched on the request path),
including the per-method buckets of `update_method_stat`. -/
structure Stats where
  requests_total : Nat
  requests_success : Nat
  requests_error : Nat
  bytes_transferred : Nat
  cache_hits : Nat
  cache_misses : Nat
  active_connections : Int
  rate_limited_requests : Nat
  m_get : Nat
  m_post : Nat
  m_put : Nat
  m_delete : Nat
  m_other : Nat
  deriving DecidableEq

/-- All-zero counters, as at server start. -/
def stats0 : Stats :=
  { requests_total := 0, requests_success := 0, requests_error := 0,
    bytes_transferred := 0, cache_hits := 0, cache_misses := 0,
    active_connections := 0, rate_limited_requests := 0,
    m_get := 0, m_post := 0, m_put := 0, m_delete := 0, m_other := 0 }

/-- Model of `Statistics.update_method_stat`: bump the method's bucket, or OTHER. -/
def update_method_stat (st : Stats) (m : String) : Stats :=
  match m with
  | "GET" => { st with m_get := st.m_get + 1 }
  | "POST" => { st with m_post := st.m_post + 1 }
  | "PUT" => { st with m_put := st.m_put + 1 }
  | "DELETE" => { st with m_delete := st.m_delete + 1 }
  | _ => { st with m_other := st.m_other + 1 }

lemma update_method_stat_frame (st : Stats) (m : String) :
    (update_method_stat st m).requests_success = st.requests_success ∧
    (update_method_stat st m).bytes_transferred = st.bytes_transferred := by
  unfold update_method_stat
  split <;> exact ⟨rfl, rfl⟩

set_option linter.unusedVariables false in
/-- Model of `RequestFilter.should_filter`: true when some non-empty rule's lowercase
form occurs as a substring of the lowercased URL; the headers argument is
accepted but unused, as in the source. -/
def should_filter (rules : List String) (url : String)
    (headers : List (String × String)) : Bool :=
  if rules.isEmpty then false
  else rules.any (fun rule =>
    rule != "" && strContainsB (strToLower url) (strToLower rule))

/-- Byte rendering of an ASCII string. -/
def strBytes (s : String) : List Nat := s.toList.map Char.toNat

/-- Model of `_send_error_response`: the synthesized HTML error reply. -/
def send_error_response (status_code : Nat) (reason : String) : Reply :=
  { status_code := status_code,
    headers := [("Content-Type", "text/html"), ("Connection", "close")],
    body := strBytes ("<html><body><h1>" ++ toString status_code ++ " " ++
      reason ++ "</h1></body></html>") }

/-- Stands in for the external `json.dumps` applied to the statistics
snapshot by `_handle_stats_request`; no claim inspects the rendering, only
the reply's status code and the untouched counters. -/
def stats_json (st : Stats) : String :=
  String.intercalate ","
    [toString st.requests_total, toString st.requests_success,
     toString st.requests_error, toString st.bytes_transferred,
     toString st.cache_hits, toString st.cache_misses,
     toString st.active_connections, toString st.rate_limited_requests]

/-- Model of `_handle_stats_request`: 200 with the JSON snapshot. -/
def handle_stats_reply (st : Stats) : Reply :=
  { status_code := 200,
    headers := [("Content-Type", "application/json"),
                ("Content-Length", toString (stats_json st).length)],
    body := strBytes (stats_json st) }

/-- What `session.request` produced for a forwarded request: a response, a
`requests` `Timeout`, another `RequestException`, or an unexpected exception
raised inside `_forward_request`'s try block. -/
inductive OriginOutcome where
  | ok : ResponseData → OriginOutcome
  | timeout : OriginOutcome
  | transportError : OriginOutcome
  | failure : OriginOutcome
  deriving DecidableEq

/-- Result of handling one parsed request: the reply sent to the client and
the cache store and counters afterwards. -/
structure HandlerResult where
  reply : Reply
  store : CacheStore
  stats : Stats
  deriving DecidableEq

/-- Model of `_forward_request`: relay the origin's outcome, caching successful GET
responses (status in [200,400)), counting a success and the origin body
length on any relayed response, and mapping `Timeout` to 504, other
`RequestException`s to 502 and any other exception to 500, each with
`requests_error` incremented. -/
def forward_request (gz : List Nat → List Nat) (ec : Bool)
    (store : CacheStore) (st : Stats) (method path : String)
    (headers : List (String × String)) (body : Option String)
    (origin : OriginOutcome) : HandlerResult :=
  match origin with
  | .ok resp =>
      let store2 :=
        if method = "GET" ∧ 200 ≤ resp.status_code ∧ resp.status_code < 400
        then cache_response store method path headers resp body
        else store
      { reply := send_response_to_client gz ec resp,
        store := store2,
        stats := { st with
          requests_success := st.requests_success + 1,
          bytes_transferred := st.bytes_transferred + resp.content.length } }
  | .timeout =>
      { reply := send_error_response 504 "Gateway Timeout", store := store,
        stats := { st with requests_error := st.requests_error + 1 } }
  | .transportError =>
      { reply := send_error_response 502 "Bad Gateway", store := store,
        stats := { st with requests_error := st.requests_error + 1 } }
  | .failure =>
      { reply := send_error_response 500 "Internal Server Error",
        store := store,
        stats := { st with requests_error := st.requests_error + 1 } }

/-- The dispatch of `_handle_client_request` once a request has parsed:
`requests_total` and the method bucket are bumped, then — in the source's
order — the filter is consulted FIRST, then the `/proxy-stats` endpoint,
then the cache (GET only), then forwarding; `active_connections` is
decremented in the `finally` block. -/
def handle_client_request (gz : List Nat → List Nat) (ec : Bool)
    (rules : List String) (store : CacheStore) (st : Stats)
    (method path : String) (headers : List (String × String))
    (body : Option String) (origin : OriginOutcome) : HandlerResult :=
  let st1 := update_method_stat
    { st with requests_total := st.requests_total + 1 } method
  let r : HandlerResult :=
    if should_filter rules path headers then
      { reply := send_error_response 403 "Forbidden", store := store,
        stats := st1 }
    else if path = "/proxy-stats" then
      { reply := handle_stats_reply st1, store := store, stats := st1 }
    else
      let g := if method = "GET" then
                 get_cached_response store method path headers body
               else { response := none, hits := 0, misses := 0 }
      let st2 := { st1 with
        cache_hits := st1.cache_hits + g.hits,
        cache_misses := st1.cache_misses + g.misses }
      match g.response with
      | some cr =>
          { reply := send_response_to_client gz ec cr, store := store,
            stats := st2 }
      | none => forward_request gz ec store st2 method path headers body origin
  { r with stats := { r.stats with
      active_connections := r.stats.active_connections - 1 } }

/-- C2 counterexample: with the denylist configured as `["stats"]`, the
filter — consulted before the endpoint check — answers a `/proxy-stats`
request with 403 Forbidden. -/
theorem stats_endpoint_filtered_counterexample :
    (handle_client_request (fun l => l) true ["stats"] [] stats0 "GET"
        "/proxy-stats" [] none OriginOutcome.failure).reply
      = send_error_response 403 "Forbidden" ∧
    (handle_client_request (fun l => l) true ["stats"] [] stats0 "GET"
        "/proxy-stats" [] none OriginOutcome.failure).reply.status_code
      = 403 := by
  constructor <;> decide

/-- C2 amended: the handler consults the RequestFilter BEFORE the
`/proxy-stats` endpoint check, so the stats endpoint is served with 200
exactly when no denylist rule matches the target `/proxy-stats`, and is
answered 403 by the filter otherwise (with the default rules ads, trackers,
malware no rule matches). -/
theorem stats_endpoint_after_filter (gz : List Nat → List Nat) (ec : Bool)
    (rules : List String) (store : CacheStore) (st : Stats) (method : String)
    (headers : List (String × String)) (body : Option String)
    (origin : OriginOutcome) :
    (handle_client_request gz ec rules store st method "/proxy-stats" headers
        body origin).reply =
      (if should_filter rules "/proxy-stats" headers
       then send_error_response 403 "Forbidden"
       else handle_stats_reply (update_method_stat
         { st with requests_total := st.requests_total + 1 } method)) ∧
    (send_error_response 403 "Forbidden").status_code = 403 ∧
    (handle_stats_reply (update_method_stat
        { st with requests_total := st.requests_total + 1 } method)).status_code
      = 200 := by
  refine ⟨?_, rfl, rfl⟩
  cases hf : should_filter rules "/proxy-stats" headers with
  | true => simp [handle_client_request, hf]
  | false => simp [handle_client_request, hf]

/-- C9: a request served from the cache (a GET whose lookup decodes to a
response) or by the stats endpoint leaves `requests_success` and
`bytes_transferred` unchanged; those counters move only on the forward
path. -/
theorem cached_and_stats_keep_success_counters (gz : List Nat → List Nat)
    (ec : Bool) (rules : List String) (store : CacheStore) (st : Stats)
    (method path : String) (headers : List (String × String))
    (body : Option String) (origin : OriginOutcome)
    (hf : should_filter rules path headers = false)
    (hcs : path = "/proxy-stats" ∨
      (get_cached_response store method path headers body).response.isSome
        = true) :
    (handle_client_request gz ec rules store st method path headers body
        origin).stats.requests_success = st.requests_success ∧
    (handle_client_request gz ec rules store st method path headers body
        origin).stats.bytes_transferred = st.bytes_transferred := by
  have hu := update_method_stat_frame
    { st with requests_total := st.requests_total + 1 } method
  rcases hcs with hp | hsome
  · subst hp
    simp [handle_client_request, hf, hu.1, hu.2]
  · by_cases hm : method = "GET"
    · by_cases hp : path = "/proxy-stats"
      · subst hp
        simp [handle_client_request, hf, hu.1, hu.2]
      · rcases hr : (get_cached_response store method path headers body).response
          with _ | cr
        · rw [hr] at hsome
          simp at hsome
        · subst hm
          simp [handle_client_request, hf, hp, hr, hu.1, hu.2]
    · rw [get_cached_response] at hsome
      rw [if_pos (by simpa using hm)] at hsome
      simp at hsome

/-- C9 witness: a stats-endpoint request evaluated concretely. -/
theorem cached_and_stats_keep_success_counters_witness :
    (handle_client_request (fun l => l) true [] [] stats0 "GET" "/proxy-stats"
        [] none OriginOutcome.failure).stats.requests_success
      = stats0.requests_success ∧
    (handle_client_request (fun l => l) true [] [] stats0 "GET" "/proxy-stats"
        [] none OriginOutcome.failure).stats.bytes_transferred
      = stats0.bytes_transferred :=
  cached_and_stats_keep_success_counters (fun l => l) true [] [] stats0 "GET"
    "/proxy-stats" [] none OriginOutcome.failure (by decide) (Or.inl rfl)

/-- The exception classes that can abort a request, by where the source
catches them: `Timeout` / other `RequestException` / any other exception
inside `_forward_request`'s try block, and `socket.timeout` / any other
exception caught by `_handle_client_request`'s own handlers. -/
inductive RequestFailure where
  | originTimeout
  | originTransport
  | forwardOther
  | clientReadTimeout
  | handlerOther
  deriving DecidableEq

/-- The reply sent and the counters left after a request aborts with the
given exception class: the three `_forward_request` classes follow its
except clauses (each increments `requests_error`); the two
`_handle_client_request` classes follow its own except clauses, which send
408 or 500 without touching `requests_error`. -/
def request_failure_outcome (gz : List Nat → List Nat) (ec : Bool)
    (store : CacheStore) (st : Stats) (method path : String)
    (headers : List (String × String)) (body : Option String) :
    RequestFailure → Reply × Stats
  | .originTimeout =>
      let r := forward_request gz ec store st method path headers body
        OriginOutcome.timeout
      (r.reply, r.stats)
  | .originTransport =>
      let r := forward_request gz ec store st method path headers body
        OriginOutcome.transportError
      (r.reply, r.stats)
  | .forwardOther =>
      let r := forward_request gz ec store st method path headers body
        OriginOutcome.failure
      (r.reply, r.stats)
  | .clientReadTimeout => (send_error_response 408 "Request Timeout", st)
  | .handlerOther => (send_error_response 500 "Internal Server Error", st)

/-- C7 counterexample: an exception that reaches
`_handle_client_request`'s generic handler — e.g. a store error raised
inside `get_cached_response` — sends 500 but leaves `requests_error`
unchanged, against the claimed increment by 1. -/
theorem error_counter_counterexample :
    (request_failure_outcome (fun l => l) true [] stats0 "GET" "/x" [] none
        RequestFailure.handlerOther).1.status_code = 500 ∧
    (request_failure_outcome (fun l => l) true [] stats0 "GET" "/x" [] none
        RequestFailure.handlerOther).2.requests_error = 0 := by
  constructor <;> rfl

/-- C7 amended: an exception that is not an origin timeout, not an origin
transport error and not a client read timeout always produces a 500 reply,
but `requests_error` is incremented by 1 only when the exception is raised
inside `_forward_request`; the handler's own generic catch sends 500 without
incrementing it. -/
theorem error_reply_and_counter (gz : List Nat → List Nat) (ec : Bool)
    (store : CacheStore) (st : Stats) (method path : String)
    (headers : List (String × String)) (body : Option String)
    (f : RequestFailure)
    (h1 : f ≠ RequestFailure.originTimeout)
    (h2 : f ≠ RequestFailure.originTransport)
    (h3 : f ≠ RequestFailure.clientReadTimeout) :
    (request_failure_outcome gz ec store st method path headers body
        f).1.status_code = 500 ∧
    (request_failure_outcome gz ec store st method path headers body
        f).2.requests_error = st.requests_error +
      (if f = RequestFailure.forwardOther then 1 else 0) := by
  cases f with
  | originTimeout => exact absurd rfl h1
  | originTransport => exact absurd rfl h2
  | clientReadTimeout => exact absurd rfl h3
  | forwardOther =>
      exact ⟨rfl, by simp [request_failure_outcome, forward_request]⟩
  | handlerOther => exact ⟨rfl, by simp [request_failure_outcome]⟩

/-- C7 witness: the `_forward_request` generic class evaluated concretely. -/
theorem error_reply_and_counter_witness :
    (request_failure_outcome (fun l => l) true [] stats0 "GET" "/x" [] none
        RequestFailure.forwardOther).1.status_code = 500 ∧
    (request_failure_outcome (fun l => l) true [] stats0 "GET" "/x" [] none
        RequestFailure.forwardOther).2.requests_error =
      stats0.requests_error +
        (if RequestFailure.forwardOther = RequestFailure.forwardOther
         then 1 else 0) :=
  error_reply_and_counter (fun l => l) true [] stats0 "GET" "/x" [] none
    RequestFailure.forwardOther (by decide) (by decide) (by decide)

/-- A Redis sorted-set for one `rate_limit:{ip}` key: members with scores.
In `is_rate_limited` the member is `str(now)` and the score `now`; `str` is
injective on integers, so members are modelled by the integers themselves. -/
abbrev ZEntries := List (Int × Int)

/-- Redis `ZREMRANGEBYSCORE key lo hi`: drop members with score in `[lo, hi]`. -/
def zremrangebyscore (entries : ZEntries) (lo hi : Int) : ZEntries :=
  entries.filter (fun e => !(decide (lo ≤ e.2) && decide (e.2 ≤ hi)))

/-- Redis `ZADD key member score`: replace the score of an existing member or
append a new member. -/
def zadd (entries : ZEntries) (m s : Int) : ZEntries :=
  if entries.any (fun e => decide (e.1 = m)) then
    entries.map (fun e => if e.1 = m then (m, s) else e)
  else entries ++ [(m, s)]

/-- Result of one `is_rate_limited` call: the verdict, the window contents
afterwards and the refreshed key TTL. -/
structure RLResult where
  limited : Bool
  window : ZEntries
  ttl : Nat
  deriving DecidableEq

/-- Model of `RateLimiter.is_rate_limited`: pipeline of trim scores in
`[0, now − W]`, add the current second, read the cardinality, refresh the
TTL to `W`; report limited when the cardinality exceeds the request limit. -/
def is_rate_limited (limit window_s : Nat) (entries : ZEntries)
    (now : Int) : RLResult :=
  let e1 := zremrangebyscore entries 0 (now - window_s)
  let e2 := zadd e1 now now
  { limited := decide (limit < e2.length), window := e2, ttl := window_s }

/-- The verdicts of a sequence of `is_rate_limited` calls for one client,
threading the window through the store. -/
def rateLimitResults (limit window_s : Nat) (entries : ZEntries) :
    List Int → List Bool
  | [] => []
  | t :: ts =>
      (is_rate_limited limit window_s entries t).limited ::
        rateLimitResults limit window_s
          (is_rate_limited limit window_s entries t).window ts

lemma rl_run (limit W : Nat) :
    ∀ (ts prev : List Int),
      List.Pairwise (· < ·) (prev ++ ts) →
      (∀ a ∈ prev ++ ts, ∀ b ∈ prev ++ ts, b - (W : Int) < a) →
      rateLimitResults limit W (prev.map fun t => (t, t)) ts =
        (List.range ts.length).map
          (fun i => decide (limit < prev.length + (i + 1)))
  | [], prev, _, _ => by simp [rateLimitResults]
  | t :: ts', prev, hpw, hwin => by
      have htmem : t ∈ prev ++ t :: ts' := by simp
      have hkeep : ∀ e ∈ prev.map (fun x => (x, x)),
          (!(decide ((0:Int) ≤ e.2) && decide (e.2 ≤ t - (W:Int)))) = true := by
        intro e he
        rcases List.mem_map.mp he with ⟨x, hx, rfl⟩
        have hx2 : t - (W:Int) < x := hwin x (by simp [hx]) t htmem
        simp
        omega
      have he1 : zremrangebyscore (prev.map fun x => (x, x)) 0 (t - (W:Int))
          = prev.map fun x => (x, x) := by
        unfold zremrangebyscore
        exact List.filter_eq_self.mpr hkeep
      have hltprev : ∀ x ∈ prev, x < t := by
        intro x hx
        exact (List.pairwise_append.mp hpw).2.2 x hx t (by simp)
      have hnot : (prev.map (fun x => (x, x))).any
          (fun e => decide (e.1 = t)) = false := by
        cases hc : (prev.map (fun x => (x, x))).any (fun e => decide (e.1 = t)) with
        | false => rfl
        | true =>
            rcases List.any_eq_true.mp hc with ⟨e, he, hpe⟩
            rcases List.mem_map.mp he with ⟨x, hx, rfl⟩
            have : x = t := by simpa using hpe
            exact absurd (this ▸ hltprev x hx) (lt_irrefl t)
      have he2 : zadd (prev.map fun x => (x, x)) t t
          = (prev ++ [t]).map fun x => (x, x) := by
        unfold zadd
        rw [if_neg (by rw [hnot]; exact Bool.false_ne_true)]
        simp
      have hr : is_rate_limited limit W (prev.map fun x => (x, x)) t
          = { limited := decide (limit < prev.length + 1),
              window := (prev ++ [t]).map fun x => (x, x), ttl := W } := by
        simp only [is_rate_limited]
        rw [he1, he2]
        simp
      have hassoc : (prev ++ [t]) ++ ts' = prev ++ t :: ts' := by
        rw [List.append_assoc]; rfl
      have ih := rl_run limit W ts' (prev ++ [t])
        (by rw [hassoc]; exact hpw) (by rw [hassoc]; exact hwin)
      rw [rateLimitResults, hr]
      simp only [ih]
      have harith : ∀ i : Nat,
          (prev ++ [t]).length + (i + 1) = prev.length + (i + 1 + 1) := by
        intro i; simp; omega
      simp [List.range_succ_eq_map, List.map_map, Function.comp, harith]
      intro a _
      omega

/-- Outcome of a store interaction as the caller sees it: a value, or an
exception raised by the store client. -/
inductive StoreOutcome (α : Type) where
  | ok : α → StoreOutcome α
  | storeError : StoreOutcome α
  deriving DecidableEq

/-- Behavior of `is_rate_limited` when the store itself may fail: the pipeline's
exception propagates to the caller — the method contains no try/except. -/
def is_rate_limited_checked (limit window_s : Nat)
    (store : StoreOutcome ZEntries) (now : Int) : StoreOutcome RLResult :=
  match store with
  | .ok entries => .ok (is_rate_limited limit window_s entries now)
  | .storeError => .storeError

/-- What the accept loop of `ProxyServer.start` does with one accepted
connection. -/
inductive AcceptAction where
  | dropNoReply
  | enqueue
  | abandonLog
  deriving DecidableEq

/-- The accept-loop step around the rate-limit check: a limited verdict
closes the socket without an HTTP reply and counts
`rate_limited_requests`; a clean verdict enqueues the connection and counts
`active_connections`; an exception propagating from the store is caught by
the loop's generic handler, which only logs — the connection is neither
enqueued nor counted. -/
def accept_step (st : Stats) (r : StoreOutcome RLResult) :
    AcceptAction × Stats :=
  match r with
  | .storeError => (AcceptAction.abandonLog, st)
  | .ok res =>
      if res.limited then
        (AcceptAction.dropNoReply,
         { st with rate_limited_requests := st.rate_limited_requests + 1 })
      else
        (AcceptAction.enqueue,
         { st with active_connections := st.active_connections + 1 })

/-- C4 counterexample: two requests (N+1 = 2 with limit N = 1) from the same
client within W = 60 seconds, both in the same integer second, coalesce in
the sorted set, so the second request is NOT reported limited. -/
theorem rate_limit_tie_counterexample :
    rateLimitResults 1 60 [] [100, 100] = [false, false] := by
  decide

/-- C4 amended: each `is_rate_limited` call trims scores in `[0, now − W]`,
adds the current second as member and score, refreshes the TTL to `W` and
returns cardinality > N; consequently a client issuing N+1 requests at
pairwise-distinct integer seconds spanning less than W is admitted N times
and reported limited on the (N+1)-th, whereupon the accept loop closes the
connection without an HTTP reply and increments `rate_limited_requests` by
exactly 1. -/
theorem rate_limit_sequence (N W : Nat) (ts : List Int) (st : Stats)
    (hsort : List.Chain' (· < ·) ts)
    (hwin : ∀ a ∈ ts, ∀ b ∈ ts, b - (W : Int) < a)
    (hlen : ts.length = N + 1) :
    rateLimitResults N W [] ts = List.replicate N false ++ [true] ∧
    (∀ w ttl, accept_step st (StoreOutcome.ok
        { limited := true, window := w, ttl := ttl }) =
      (AcceptAction.dropNoReply,
       { st with rate_limited_requests := st.rate_limited_requests + 1 })) := by
  constructor
  · have hpw : List.Pairwise (· < ·) ts := List.chain'_iff_pairwise.mp hsort
    have h0 := rl_run N W ts [] (by simpa using hpw) (by simpa using hwin)
    simp only [List.map_nil, List.length_nil] at h0
    rw [h0, hlen, List.range_succ, List.map_append]
    congr 1
    · refine List.eq_replicate_iff.mpr ⟨by simp, ?_⟩
      intro b hb
      rcases List.mem_map.mp hb with ⟨i, hi, rfl⟩
      have hiN : i < N := List.mem_range.mp hi
      simp only [decide_eq_false_iff_not]
      omega
    · simp
  · intro w ttl
    rfl

/-- C4 witness: three requests at seconds 100, 101, 102 with limit 2. -/
theorem rate_limit_sequence_witness :
    rateLimitResults 2 60 [] [100, 101, 102]
      = List.replicate 2 false ++ [true] ∧
    (∀ w ttl, accept_step stats0 (StoreOutcome.ok
        { limited := true, window := w, ttl := ttl }) =
      (AcceptAction.dropNoReply,
       { stats0 with
          rate_limited_requests := stats0.rate_limited_requests + 1 })) :=
  rate_limit_sequence 2 60 [100, 101, 102] stats0
    (by norm_num [List.chain'_cons]) (by decide) rfl

/-- C8 counterexample: when the store fails, `is_rate_limited` does not
report "not limited" — the exception propagates out of it — and the accept
loop's generic handler abandons the connection instead of enqueueing it. -/
theorem rate_limit_fail_open_counterexample :
    is_rate_limited_checked 100 60 StoreOutcome.storeError 0
      = StoreOutcome.storeError ∧
    (accept_step stats0 StoreOutcome.storeError).1
      = AcceptAction.abandonLog ∧
    (accept_step stats0 StoreOutcome.storeError).1 ≠ AcceptAction.enqueue := by
  exact ⟨rfl, rfl, by decide⟩

/-- C8 amended: a store failure propagates out of `is_rate_limited` (the
method has no exception handler); the accept loop's generic except clause
logs the error and abandons the connection, which is neither
closed-as-limited nor enqueued, with every counter unchanged. -/
theorem rate_limit_store_error (limit window_s : Nat) (now : Int)
    (st : Stats) :
    is_rate_limited_checked limit window_s StoreOutcome.storeError now
      = StoreOutcome.storeError ∧
    accept_step st StoreOutcome.storeError = (AcceptAction.abandonLog, st) :=
  ⟨rfl, rfl⟩

/-- A value in the shared Redis database: a cache manager string entry or a
rate-limiter sorted set. -/
inductive RedisVal where
  | str : CacheVal → RedisVal
  | zset : ZEntries → RedisVal
  deriving DecidableEq

/-- Redis `DEL key` on the shared database. -/
def redisDel (db : List (String × RedisVal)) (k : String) :
    List (String × RedisVal) :=
  db.filter (fun e => decide (e.1 ≠ k))

/-- Model of `CacheManager.invalidate_cache` with no url pattern: iterate
`scan_iter("*")` over the WHOLE configured database and delete every key. -/
def invalidate_cache_all (db : List (String × RedisVal)) :
    List (String × RedisVal) :=
  (db.map Prod.fst).foldl redisDel db

lemma foldl_del_all : ∀ (ks : List String) (db : List (String × RedisVal)),
    (∀ e ∈ db, e.1 ∈ ks) → ks.foldl redisDel db = []
  | [], db, h => by
      cases db with
      | nil => rfl
      | cons e t => exact absurd (h e (by simp)) (by simp)
  | k :: ks, db, h => by
      rw [List.foldl_cons]
      apply foldl_del_all ks (redisDel db k)
      intro e he
      have hm := List.mem_filter.mp he
      have hne : e.1 ≠ k := by simpa using hm.2
      rcases List.mem_cons.mp (h e hm.1) with h1 | h2
      · exact absurd h1 hne
      · exact h2

/-- C10: `invalidate_cache` with no url pattern deletes every key in the
configured store database — the scan pattern is `*`, so the
`rate_limit:<client_ip>` sliding windows are deleted along with the cache
entries; nothing outside the cache namespace survives. -/
theorem invalidate_cache_all_deletes_everything
    (db : List (String × RedisVal)) :
    invalidate_cache_all db = [] ∧
    ∀ ip : String,
      dlookup (invalidate_cache_all db) ("rate_limit:" ++ ip) = none := by
  have h : invalidate_cache_all db = [] :=
    foldl_del_all (db.map Prod.fst) db
      (fun e he => List.mem_map.mpr ⟨e, he, rfl⟩)
  exact ⟨h, fun ip => by rw [h]; rfl⟩
